import Mathlib

/-!
# Verification of the attention core of `Transformers-in-Vision-Tasks`

Shallow embedding of `src/transformer_captioning/transformer.py` and
`src/vit_classification/vit.py`.  Tensors are dependently typed functions
`Fin N → Fin S → Fin D → α` over a linear ordered field `α`; the two
transcendental functions the source uses (`math.sqrt` / the softmax
exponential) are threaded explicitly through every forward pass as a
`MathOps α` record, so that all definitions stay executable and can be
instantiated with `ℝ` (with `Real.sqrt`, `Real.exp`) or with `ℚ` and a
concrete function for testing.  Dropout layers are modelled in evaluation
mode, where `nn.Dropout` is the identity; no claim below depends on the
training-mode randomness.
-/

namespace TV

/-- The analytic operations the source gets from `math` / `torch`:
`sqrt` for the attention scale factor and the layer-norm denominator,
`exp` for softmax. -/
structure MathOps (α : Type) where
  exp : α → α
  sqrt : α → α

variable {α : Type} [LinearOrderedField α]

/-- `nn.Linear(din, dout)`: weight of shape `(out, in)`, bias of shape `(out)`;
`y = W x + b`. -/
structure LinearLayer (α : Type) (din dout : ℕ) where
  weight : Fin dout → Fin din → α
  bias : Fin dout → α

/-- Application of an `nn.Linear` layer to the channel axis. -/
def LinearLayer.apply (L : LinearLayer α din dout) (x : Fin din → α) : Fin dout → α :=
  fun o => (∑ i, L.weight o i * x i) + L.bias o

/-- `mask.float()` on a boolean entry. -/
def boolToScalar (b : Bool) : α := if b then 1 else 0

/-- The constant `big_negative_num = -1e9` from the source. -/
def bigNeg : α := -(1000000000 : α)

/-- `F.softmax(x, dim=-1)` along the final axis. -/
def softmaxFn (ops : MathOps α) {T : ℕ} (x : Fin T → α) : Fin T → α :=
  fun t => ops.exp (x t) / ∑ u, ops.exp (x u)

/-- `nn.Dropout` in evaluation mode: the identity. -/
def dropoutEval {β : Type} (x : β) : β := x

/-- `AttentionLayer.__init__`: three projection layers `query_proj`,
`key_proj`, `value_proj` are created (`key_proj` and `value_proj` as deep
copies of `query_proj`, hence independent parameter sets with initially
equal values), plus a dropout layer (not a parameter in eval mode). -/
structure AttentionLayer (α : Type) (D : ℕ) where
  query_proj : LinearLayer α D D
  key_proj : LinearLayer α D D
  value_proj : LinearLayer α D D

/-- `AttentionLayer.forward` transcribed line by line from the source
(lines 24-68 of `transformer.py`).  Note that the source projects query,
key AND value through `self.query_proj` (lines 39-41). -/
def AttentionLayer.forward (ops : MathOps α) {D N S T : ℕ} (A : AttentionLayer α D)
    (query : Fin N → Fin S → Fin D → α) (key value : Fin N → Fin T → Fin D → α)
    (attn_mask : Option (Fin S → Fin T → Bool)) : Fin N → Fin S → Fin D → α :=
  let q := fun n s => A.query_proj.apply (query n s)
  let k := fun n t => A.query_proj.apply (key n t)
  let v := fun n t => A.query_proj.apply (value n t)
  let scale_factor := ops.sqrt (D : α)
  let dot_product := fun n (s : Fin S) (t : Fin T) => ∑ i, q n s i * k n t i
  let scaled_attn_scores := fun n s t => dot_product n s t / scale_factor
  let masked_scores :=
    match attn_mask with
    | none => scaled_attn_scores
    | some m => fun n s t =>
        scaled_attn_scores n s t + (1 - boolToScalar (m s t)) * bigNeg
  let attn_probs := fun n s => dropoutEval (softmaxFn ops (masked_scores n s))
  fun n s i => ∑ t, attn_probs n s t * v n t i

/-- Follows the spec's words for §4.1 step 1: "Linearly project query, key,
value independently through three separate learned projections (not shared
weights)"; otherwise identical to `AttentionLayer.forward`.  Used to compare
the source against the specified behaviour. -/
def AttentionLayer.forwardSeparateProj (ops : MathOps α) {D N S T : ℕ} (A : AttentionLayer α D)
    (query : Fin N → Fin S → Fin D → α) (key value : Fin N → Fin T → Fin D → α)
    (attn_mask : Option (Fin S → Fin T → Bool)) : Fin N → Fin S → Fin D → α :=
  let q := fun n s => A.query_proj.apply (query n s)
  let k := fun n t => A.key_proj.apply (key n t)
  let v := fun n t => A.value_proj.apply (value n t)
  let scale_factor := ops.sqrt (D : α)
  let dot_product := fun n (s : Fin S) (t : Fin T) => ∑ i, q n s i * k n t i
  let scaled_attn_scores := fun n s t => dot_product n s t / scale_factor
  let masked_scores :=
    match attn_mask with
    | none => scaled_attn_scores
    | some m => fun n s t =>
        scaled_attn_scores n s t + (1 - boolToScalar (m s t)) * bigNeg
  let attn_probs := fun n s => dropoutEval (softmaxFn ops (masked_scores n s))
  fun n s i => ∑ t, attn_probs n s t * v n t i

/-- The flat channel index of component `j` of head `h` under the source's
`view(N, S, H, D//H)` reshape of a contiguous `D = H * Dh` channel axis. -/
def headIdx {H Dh : ℕ} (h : Fin H) (j : Fin Dh) : Fin (H * Dh) :=
  ⟨h.val * Dh + j.val, by
    calc h.val * Dh + j.val < h.val * Dh + Dh := Nat.add_lt_add_left j.isLt _
      _ = (h.val + 1) * Dh := by ring
      _ ≤ H * Dh := Nat.mul_le_mul_right Dh h.isLt⟩

/-- From an inhabitant of `Fin (H * Dh)`, the per-head width is positive. -/
theorem dh_pos {H Dh : ℕ} (d : Fin (H * Dh)) : 0 < Dh := by
  have hpos : 0 < H * Dh := d.pos
  exact Nat.pos_of_ne_zero (fun h => by subst h; simp at hpos)

/-- The head that flat channel `d` belongs to under the `(H, Dh)` view. -/
def headOf {H Dh : ℕ} (d : Fin (H * Dh)) : Fin H :=
  ⟨d.val / Dh, (Nat.div_lt_iff_lt_mul (dh_pos d)).mpr d.isLt⟩

/-- The within-head position of flat channel `d` under the `(H, Dh)` view. -/
def posOf {H Dh : ℕ} (d : Fin (H * Dh)) : Fin Dh :=
  ⟨d.val % Dh, Nat.mod_lt _ (dh_pos d)⟩

/-- `MultiHeadAttentionLayer.__init__`: inherits the three projection
layers from `AttentionLayer.__init__` via `super().__init__`, asserts
`embed_dim % num_heads == 0` (modelled by the `H * Dh` index), and adds
`head_proj = nn.Linear(embed_dim, embed_dim)`. -/
structure MultiHeadAttentionLayer (α : Type) (H Dh : ℕ) extends
    AttentionLayer α (H * Dh) where
  head_proj : LinearLayer α (H * Dh) (H * Dh)

/-- `MultiHeadAttentionLayer.forward` transcribed from the source (lines
81-133 of `transformer.py`): one shared `head_proj` projects query, key and
value; the `view`/`transpose(1,2)` pair is the reindexing by `headIdx`; the
scale factor is `sqrt(D)` with `D` the full embedding dimension read off
`value.shape`; the final `transpose/contiguous/view` merge is the
reindexing by `headOf`/`posOf`, with no further projection. -/
def MultiHeadAttentionLayer.forward (ops : MathOps α) {H Dh N S T : ℕ}
    (L : MultiHeadAttentionLayer α H Dh)
    (query : Fin N → Fin S → Fin (H * Dh) → α)
    (key value : Fin N → Fin T → Fin (H * Dh) → α)
    (attn_mask : Option (Fin S → Fin T → Bool)) : Fin N → Fin S → Fin (H * Dh) → α :=
  let q := fun n (s : Fin S) (h : Fin H) (j : Fin Dh) =>
    L.head_proj.apply (query n s) (headIdx h j)
  let k := fun n (t : Fin T) (h : Fin H) (j : Fin Dh) =>
    L.head_proj.apply (key n t) (headIdx h j)
  let v := fun n (t : Fin T) (h : Fin H) (j : Fin Dh) =>
    L.head_proj.apply (value n t) (headIdx h j)
  let qT := fun n h s j => q n s h j
  let kT := fun n h t j => k n t h j
  let vT := fun n h t j => v n t h j
  let scale_factor := ops.sqrt ((H * Dh : ℕ) : α)
  let dot_product := fun n h (s : Fin S) (t : Fin T) => ∑ j, qT n h s j * kT n h t j
  let scaled_attn_scores := fun n h s t => dot_product n h s t / scale_factor
  let masked_scores :=
    match attn_mask with
    | none => scaled_attn_scores
    | some m => fun n h s t =>
        scaled_attn_scores n h s t + (1 - boolToScalar (m s t)) * bigNeg
  let attn_probs := fun n h s => dropoutEval (softmaxFn ops (masked_scores n h s))
  let y := fun n h (s : Fin S) (j : Fin Dh) => ∑ t, attn_probs n h s t * vT n h t j
  fun n s d => y n (headOf d) s (posOf d)

/-- Follows the spec's words for §4.1 steps 2-6, as one head of attention:
raw scores from the given per-head slices, an explicit scale factor, the
additive mask bias, softmax over the key axis, dropout (eval mode), and the
probability-weighted sum of values. -/
def attnHeadCore (ops : MathOps α) {Dh S T : ℕ} (scale : α)
    (q : Fin S → Fin Dh → α) (k v : Fin T → Fin Dh → α)
    (attn_mask : Option (Fin S → Fin T → Bool)) : Fin S → Fin Dh → α :=
  let scores := fun (s : Fin S) (t : Fin T) => (∑ j, q s j * k t j) / scale
  let masked :=
    match attn_mask with
    | none => scores
    | some m => fun s t => scores s t + (1 - boolToScalar (m s t)) * bigNeg
  let probs := fun s => dropoutEval (softmaxFn ops (masked s))
  fun s j => ∑ t, probs s t * v t j

/-- Follows the spec's words for §4.2: "A single shared projection maps
D→D for query, key, and value", the projected tensors are split into `H`
heads of size `D/H`, attention runs per head "using scale factor 1/sqrt(D)
(the *full* embedding dimension)", and "head outputs are concatenated along
the channel axis back to D and returned — no further output projection". -/
def MultiHeadAttentionLayer.forwardSpec (ops : MathOps α) {H Dh N S T : ℕ}
    (L : MultiHeadAttentionLayer α H Dh)
    (query : Fin N → Fin S → Fin (H * Dh) → α)
    (key value : Fin N → Fin T → Fin (H * Dh) → α)
    (attn_mask : Option (Fin S → Fin T → Bool)) : Fin N → Fin S → Fin (H * Dh) → α :=
  let proj := fun (x : Fin (H * Dh) → α) (h : Fin H) (j : Fin Dh) =>
    L.head_proj.apply x (headIdx h j)
  let headOut := fun (n : Fin N) (h : Fin H) =>
    attnHeadCore ops (ops.sqrt ((H * Dh : ℕ) : α))
      (fun s j => proj (query n s) h j)
      (fun t j => proj (key n t) h j)
      (fun t j => proj (value n t) h j) attn_mask
  fun n s d => headOut n (headOf d) s (posOf d)

/-- C2: In `MultiHeadAttentionLayer.forward`, one single shared projection
(`head_proj`, mapping D to D) is applied to query, key, and value alike,
every head's scores are scaled by `1/sqrt(D)` with `D = H * Dh` the full
embedding dimension, and no output projection is applied after the heads
are merged back to `(N, S, D)`: the source forward coincides with the
head-wise description `forwardSpec` built from the spec's words. -/
theorem C2_mha_shared_proj_full_scale_no_out_proj (ops : MathOps α) {H Dh N S T : ℕ}
    (L : MultiHeadAttentionLayer α H Dh)
    (query : Fin N → Fin S → Fin (H * Dh) → α)
    (key value : Fin N → Fin T → Fin (H * Dh) → α)
    (attn_mask : Option (Fin S → Fin T → Bool)) :
    L.forward ops query key value attn_mask = L.forwardSpec ops query key value attn_mask := by
  cases attn_mask with
  | none => rfl
  | some m => rfl

/-- Follows the spec's words for §4.1 step 4: the additive bias is
"exactly -1e9 at every entry where mask(i,j)==0 and exactly 0 at every
entry where mask(i,j)==1". -/
def specAdditiveBias {S T : ℕ} (m : Fin S → Fin T → Bool) : Fin S → Fin T → α :=
  fun s t => if m s t then 0 else bigNeg

/-- The source's multiplicative-to-additive mask conversion
`(1 - attn_mask.float()) * big_negative_num` agrees entrywise with the
spec's exact bias. -/
theorem maskBias_eq (b : Bool) :
    (1 - boolToScalar b) * bigNeg = (if b then (0 : α) else bigNeg) := by
  cases b <;> simp [boolToScalar]

/-- Single-head attention with the spec's bias added to the scaled scores
before softmax; used to compare against `AttentionLayer.forward`. -/
def AttentionLayer.forwardSpecMask (ops : MathOps α) {D N S T : ℕ} (A : AttentionLayer α D)
    (query : Fin N → Fin S → Fin D → α) (key value : Fin N → Fin T → Fin D → α)
    (m : Fin S → Fin T → Bool) : Fin N → Fin S → Fin D → α :=
  let q := fun n s => A.query_proj.apply (query n s)
  let k := fun n t => A.query_proj.apply (key n t)
  let v := fun n t => A.query_proj.apply (value n t)
  let scale_factor := ops.sqrt (D : α)
  let dot_product := fun n (s : Fin S) (t : Fin T) => ∑ i, q n s i * k n t i
  let scaled_attn_scores := fun n s t => dot_product n s t / scale_factor
  let masked_scores := fun n s t => scaled_attn_scores n s t + specAdditiveBias m s t
  let attn_probs := fun n s => dropoutEval (softmaxFn ops (masked_scores n s))
  fun n s i => ∑ t, attn_probs n s t * v n t i

/-- Multi-head attention with the spec's bias added to each head's scaled
scores before softmax; used to compare against
`MultiHeadAttentionLayer.forward`. -/
def MultiHeadAttentionLayer.forwardSpecMask (ops : MathOps α) {H Dh N S T : ℕ}
    (L : MultiHeadAttentionLayer α H Dh)
    (query : Fin N → Fin S → Fin (H * Dh) → α)
    (key value : Fin N → Fin T → Fin (H * Dh) → α)
    (m : Fin S → Fin T → Bool) : Fin N → Fin S → Fin (H * Dh) → α :=
  let q := fun n (s : Fin S) (h : Fin H) (j : Fin Dh) =>
    L.head_proj.apply (query n s) (headIdx h j)
  let k := fun n (t : Fin T) (h : Fin H) (j : Fin Dh) =>
    L.head_proj.apply (key n t) (headIdx h j)
  let v := fun n (t : Fin T) (h : Fin H) (j : Fin Dh) =>
    L.head_proj.apply (value n t) (headIdx h j)
  let scale_factor := ops.sqrt ((H * Dh : ℕ) : α)
  let dot_product := fun n (h : Fin H) (s : Fin S) (t : Fin T) =>
    ∑ j, q n s h j * k n t h j
  let scaled_attn_scores := fun n h s t => dot_product n h s t / scale_factor
  let masked_scores := fun n h s t => scaled_attn_scores n h s t + specAdditiveBias m s t
  let attn_probs := fun n h s => dropoutEval (softmaxFn ops (masked_scores n h s))
  let y := fun n (h : Fin H) (s : Fin S) (j : Fin Dh) => ∑ t, attn_probs n h s t * v n t h j
  fun n s d => y n (headOf d) s (posOf d)

/-- C4: for every supplied attention mask, in both `AttentionLayer` and
`MultiHeadAttentionLayer`, the scores passed to softmax equal the scaled
dot-product scores plus an additive bias that is exactly `-1e9` where the
mask is 0 and exactly `0` where the mask is 1, added before the softmax
normalization. -/
theorem C4_additive_mask_bias (ops : MathOps α) {D H Dh N S T : ℕ}
    (A : AttentionLayer α D) (L : MultiHeadAttentionLayer α H Dh)
    (query : Fin N → Fin S → Fin D → α) (key value : Fin N → Fin T → Fin D → α)
    (queryM : Fin N → Fin S → Fin (H * Dh) → α)
    (keyM valueM : Fin N → Fin T → Fin (H * Dh) → α)
    (m : Fin S → Fin T → Bool) :
    A.forward ops query key value (some m) = A.forwardSpecMask ops query key value m ∧
    L.forward ops queryM keyM valueM (some m) = L.forwardSpecMask ops queryM keyM valueM m := by
  constructor
  · simp only [AttentionLayer.forward, AttentionLayer.forwardSpecMask, specAdditiveBias,
      maskBias_eq]
  · simp only [MultiHeadAttentionLayer.forward, MultiHeadAttentionLayer.forwardSpecMask,
      specAdditiveBias, maskBias_eq]

/-- Concrete analytic operations over `ℚ` for evaluating the layers on
small inputs: a constant softmax exponential and the identity square root
(exact on the arguments `0` and `1` used below). -/
def opsQ : MathOps ℚ := ⟨fun _ => 1, fun x => x⟩

/-- A concrete `AttentionLayer` over `ℚ` with `D = 1`: `query_proj` and
`key_proj` have weight 1, `value_proj` has weight 2, all biases 0 (the
state after one training update has driven the deep-copied projections
apart). -/
def exAttn : AttentionLayer ℚ 1 :=
  ⟨⟨fun _ _ => 1, fun _ => 0⟩, ⟨fun _ _ => 1, fun _ => 0⟩, ⟨fun _ _ => 2, fun _ => 0⟩⟩

/-- A concrete `(N,S,D) = (1,1,1)` input tensor with the single entry 1. -/
def exInput : Fin 1 → Fin 1 → Fin 1 → ℚ := fun _ _ _ => 1

/-- C1 fails on the code: the source `AttentionLayer.forward` projects
query, key AND value through `self.query_proj` (the distinct `key_proj`
and `value_proj` created in `__init__` are never used), so on a layer
whose `value_proj` weights differ from `query_proj` the result (here `1`)
differs from the spec's three-separate-projections computation (here `2`,
obtained by routing the value through `value_proj`). -/
theorem C1_key_value_projected_with_query_proj :
    AttentionLayer.forward opsQ exAttn exInput exInput exInput none 0 0 0 = 1 ∧
    AttentionLayer.forwardSeparateProj opsQ exAttn exInput exInput exInput none 0 0 0 = 2 := by
  constructor <;>
    simp [AttentionLayer.forward, AttentionLayer.forwardSeparateProj, LinearLayer.apply,
      softmaxFn, dropoutEval, opsQ, exAttn, exInput]

/-- `Tensor.tril(diagonal)` on a square boolean matrix: keep entry `(i,j)`
when `j ≤ i + diagonal`, zero it otherwise. -/
def trilBool (L : ℕ) (diagonal : ℤ) (M : Fin L → Fin L → Bool) : Fin L → Fin L → Bool :=
  fun i j => if (j.val : ℤ) ≤ (i.val : ℤ) + diagonal then M i j else false

/-- `TransformerDecoder.get_causal_mask`:
`torch.ones(_len, _len, dtype=torch.bool).tril(diagonal=0)`. -/
def get_causal_mask (L : ℕ) : Fin L → Fin L → Bool :=
  trilBool L 0 (fun _ _ => true)

/-- C3: for every sequence length `L ≥ 1`, `get_causal_mask L` is the
`L × L` boolean matrix with entry `(i,j)` equal to 1 iff `j ≤ i`
(lower-triangular including the diagonal); in particular `mask(0,0) = 1`
and, for `L ≥ 2`, `mask(0,1) = 0`. -/
theorem C3_causal_mask_lower_triangular (L : ℕ) (hL : 1 ≤ L) :
    (∀ i j : Fin L, get_causal_mask L i j = true ↔ j.val ≤ i.val) ∧
    get_causal_mask L ⟨0, hL⟩ ⟨0, hL⟩ = true ∧
    (∀ h2 : 2 ≤ L, get_causal_mask L ⟨0, hL⟩ ⟨1, h2⟩ = false) := by
  refine ⟨fun i j => ?_, ?_, fun h2 => ?_⟩
  · simp [get_causal_mask, trilBool]
  · simp [get_causal_mask, trilBool]
  · simp [get_causal_mask, trilBool]

/-- Witness for C3 at `L = 2`. -/
theorem C3_causal_mask_witness :
    (get_causal_mask 2 ⟨1, by decide⟩ ⟨0, by decide⟩ = true) ∧
    (get_causal_mask 2 ⟨0, by decide⟩ ⟨0, by decide⟩ = true) ∧
    (get_causal_mask 2 ⟨0, by decide⟩ ⟨1, by decide⟩ = false) :=
  ⟨(C3_causal_mask_lower_triangular 2 (by decide)).1 ⟨1, by decide⟩ ⟨0, by decide⟩
      |>.mpr (by decide),
    (C3_causal_mask_lower_triangular 2 (by decide)).2.1,
    (C3_causal_mask_lower_triangular 2 (by decide)).2.2 (by decide)⟩

/-- `ViT.patchify` transcribed from the source (`vit.py` lines 78-93).
Images are indexed `(n, c, h, w)` as total functions on `ℕ`.  The double
`unfold` produces the `(N, C, nv, nh, p, p)` tensor with element
`(n, c, i, j, a, b) = images(n, c, i*p+a, j*p+b)`; `nv`/`nh` are the
vertical/horizontal slice counts `H/p` and `W/p`.  The `permute` on line
91 is NOT assigned (its result is discarded), so `reshape(N, -1, p*p*C)`
flattens the `(C, nv, nh, p, p)` axes row-major: output entry `(n, k, m)`
reads flat position `k*(p*p*C) + m` of that layout. -/
def patchify (p C nv nh : ℕ) (images : ℕ → ℕ → ℕ → ℕ → α) : ℕ → ℕ → ℕ → α :=
  fun n k m =>
    let flat := k * (p * p * C) + m
    let b := flat % p
    let a := flat / p % p
    let j := flat / (p * p) % nh
    let i := flat / (p * p * nh) % nv
    let c := flat / (p * p * nh * nv)
    images n c (i * p + a) (j * p + b)

/-- Follows the spec's words for the patchify scenario (§8): "each patch's
values must exactly equal the corresponding contiguous pixel block,
channel-major": patch `k = (i, j)` in row-major grid order, with component
`m = c*(p*p) + a*p + b` reading pixel `(c, i*p+a, j*p+b)`. -/
def patchSpecChannelMajor (p nh : ℕ) (images : ℕ → ℕ → ℕ → ℕ → α) : ℕ → ℕ → ℕ → α :=
  fun n k m =>
    let c := m / (p * p)
    let a := m / p % p
    let b := m % p
    let i := k / nh
    let j := k % nh
    images n c (i * p + a) (j * p + b)

/-- The `(1,3,4,4)` test image from the claim, with pixel `(c,h,w)` holding
the value `16c + 4h + w`, so that every pixel holds a distinct value. -/
def exImage : ℕ → ℕ → ℕ → ℕ → ℚ := fun _ c h w => (16 * c + 4 * h + w : ℚ)

/-- C5 fails on the code: on the `(1,3,4,4)` image with `patch_dim = 2`
(so `C = 3`, `nv = nh = 2`), component 4 of patch 0 is the pixel
`(c,h,w) = (0,0,2)` with value 2 — a pixel of a *different* spatial block
of channel 0 — because the `permute` on line 91 of `vit.py` is discarded;
the channel-major block layout the claim specifies has value 16 there
(pixel `(1,0,0)`). -/
theorem C5_patchify_not_channel_major_block :
    patchify 2 3 2 2 exImage 0 0 4 = 2 ∧
    patchSpecChannelMajor 2 2 exImage 0 0 4 = 16 := by
  constructor <;> norm_num [patchify, patchSpecChannelMajor, exImage]

/-- `PositionalEncoding.__init__`: a learned `nn.Embedding(max_len, D)`
lookup table (plus a dropout layer). -/
structure PositionalEncoding (α : Type) (D maxLen : ℕ) where
  encoding : Fin maxLen → Fin D → α

/-- `PositionalEncoding.forward`: add the table rows for positions
`0..S-1` to the input (broadcast over the batch), then dropout.  The
lookup requires `S ≤ maxLen` (out-of-range indices raise in the source). -/
def PositionalEncoding.forward {D maxLen N S : ℕ} (P : PositionalEncoding α D maxLen)
    (x : Fin N → Fin S → Fin D → α) (hS : S ≤ maxLen) : Fin N → Fin S → Fin D → α :=
  fun n s i => dropoutEval (x n s i + P.encoding (Fin.castLE hS s) i)

/-- `nn.LayerNorm(D, elementwise_affine=True)`: learned scale and bias. -/
structure LayerNormLayer (α : Type) (D : ℕ) where
  weight : Fin D → α
  bias : Fin D → α

/-- PyTorch's default layer-norm epsilon, `1e-5`. -/
def layerNormEps : α := 1 / 100000

/-- Layer normalization over the channel axis: subtract the mean, divide
by `sqrt(biased variance + eps)`, then apply the learned affine map. -/
def LayerNormLayer.apply (ops : MathOps α) {D : ℕ} (L : LayerNormLayer α D)
    (x : Fin D → α) : Fin D → α :=
  let μ := (∑ i, x i) / (D : α)
  let σsq := (∑ i, (x i - μ) ^ 2) / (D : α)
  fun i => (x i - μ) / ops.sqrt (σsq + layerNormEps) * L.weight i + L.bias i

/-- `SelfAttentionBlock.__init__`: a `MultiHeadAttentionLayer`, a dropout
layer, and a `LayerNorm` of width `input_dim = H * Dh`. -/
structure SelfAttentionBlock (α : Type) (H Dh : ℕ) where
  self_attn : MultiHeadAttentionLayer α H Dh
  layernorm : LayerNormLayer α (H * Dh)

/-- `SelfAttentionBlock.forward`: masked self-attention with
query = key = value = `seq`, dropout, residual connection, layer norm. -/
def SelfAttentionBlock.forward (ops : MathOps α) {H Dh N S : ℕ}
    (B : SelfAttentionBlock α H Dh) (seq : Fin N → Fin S → Fin (H * Dh) → α)
    (mask : Option (Fin S → Fin S → Bool)) : Fin N → Fin S → Fin (H * Dh) → α :=
  let x := B.self_attn.forward ops seq seq seq mask
  let x := fun n s i => dropoutEval (x n s i)
  let x := fun n s i => x n s i + seq n s i
  fun n s => B.layernorm.apply ops (x n s)

/-- `CrossAttentionBlock.__init__`: a `MultiHeadAttentionLayer`, a dropout
layer, and a `LayerNorm` of width `input_dim = H * Dh`. -/
structure CrossAttentionBlock (α : Type) (H Dh : ℕ) where
  cross_attn : MultiHeadAttentionLayer α H Dh
  layernorm : LayerNormLayer α (H * Dh)

/-- `CrossAttentionBlock.forward`: cross-attention with query = `seq`,
key = value = `cond`, no mask, then dropout, residual, layer norm. -/
def CrossAttentionBlock.forward (ops : MathOps α) {H Dh N S Sc : ℕ}
    (B : CrossAttentionBlock α H Dh) (seq : Fin N → Fin S → Fin (H * Dh) → α)
    (cond : Fin N → Fin Sc → Fin (H * Dh) → α) : Fin N → Fin S → Fin (H * Dh) → α :=
  let x := B.cross_attn.forward ops seq cond cond none
  let x := fun n s i => dropoutEval (x n s i)
  let x := fun n s i => x n s i + seq n s i
  fun n s => B.layernorm.apply ops (x n s)

/-- `FeedForwardBlock.__init__`: `mlp = Sequential(Linear(D, dff), ReLU,
Dropout, Linear(dff, D))`, a dropout layer, and a `LayerNorm`. -/
structure FeedForwardBlock (α : Type) (D dff : ℕ) where
  linear1 : LinearLayer α D dff
  linear2 : LinearLayer α dff D
  layernorm : LayerNormLayer α D

/-- `FeedForwardBlock.forward`: the MLP, dropout, residual, layer norm. -/
def FeedForwardBlock.forward (ops : MathOps α) {D dff N S : ℕ}
    (B : FeedForwardBlock α D dff) (seq : Fin N → Fin S → Fin D → α) :
    Fin N → Fin S → Fin D → α :=
  let mlp := fun n (s : Fin S) =>
    B.linear2.apply (fun h => dropoutEval (max 0 (B.linear1.apply (seq n s) h)))
  let x := fun n s i => dropoutEval (mlp n s i) + seq n s i
  fun n s => B.layernorm.apply ops (x n s)

/-- `DecoderLayer.__init__`: a self-attention block, a cross-attention
block, and a feed-forward block, all of width `input_dim = H * Dh`. -/
structure DecoderLayer (α : Type) (H Dh dff : ℕ) where
  self_atn_block : SelfAttentionBlock α H Dh
  cross_atn_block : CrossAttentionBlock α H Dh
  feedforward_block : FeedForwardBlock α (H * Dh) dff

/-- `DecoderLayer.forward`: self-attention (masked), cross-attention
(against the conditioning sequence), feed-forward. -/
def DecoderLayer.forward (ops : MathOps α) {H Dh dff N S Sc : ℕ}
    (l : DecoderLayer α H Dh dff) (seq : Fin N → Fin S → Fin (H * Dh) → α)
    (cond : Fin N → Fin Sc → Fin (H * Dh) → α)
    (mask : Option (Fin S → Fin S → Bool)) : Fin N → Fin S → Fin (H * Dh) → α :=
  let out := l.self_atn_block.forward ops seq mask
  let out := l.cross_atn_block.forward ops out cond
  l.feedforward_block.forward ops out

/-- `EncoderLayer.__init__` (`vit.py`): a self-attention block and a
feed-forward block of width `d_model = H * Dh`. -/
structure EncoderLayer (α : Type) (H Dh dff : ℕ) where
  self_attention : SelfAttentionBlock α H Dh
  feed_forward : FeedForwardBlock α (H * Dh) dff

/-- `EncoderLayer.forward`: self-attention with the given mask, then
feed-forward. -/
def EncoderLayer.forward (ops : MathOps α) {H Dh dff N S : ℕ}
    (l : EncoderLayer α H Dh dff) (seq : Fin N → Fin S → Fin (H * Dh) → α)
    (mask : Option (Fin S → Fin S → Bool)) : Fin N → Fin S → Fin (H * Dh) → α :=
  let x := l.self_attention.forward ops seq mask
  l.feed_forward.forward ops x

/-- `ViT.__init__` (`vit.py`): patch embedding `Linear(pd*pd*3, d_model)`,
positional encoding, final classifier `fc : Linear(d_model, classes)`, the
learnable `cls_token` of shape `(1, 1, d_model)`, and `num_layers` encoder
layers.  `d_model = H * Dh` and `P` is `num_patches`. -/
structure ViT (α : Type) (H Dh dff P maxLen classes pd : ℕ) where
  patch_embedding : LinearLayer α (pd * pd * 3) (H * Dh)
  positional_encoding : PositionalEncoding α (H * Dh) maxLen
  fc : LinearLayer α (H * Dh) classes
  cls_token : Fin (H * Dh) → α
  layers : List (EncoderLayer α H Dh dff)

/-- `ViT.forward` transcribed from the source (`vit.py` lines 95-126):
patchify, patch embedding, the CLS-token repeat and concatenation (whose
result `output` is immediately overwritten on line 114 by
`positional_encoding(patches_embedded)`), the all-ones
`(num_patches, num_patches)` mask, the encoder loop, and the classifier
applied at sequence position 0.  `nv`/`nh` are the image's vertical and
horizontal slice counts; `hP`/`hLen` discharge the index bounds the source
assumes (`num_patches ≥ 1` and `num_patches ≤ max_len`). -/
def ViT.forward (ops : MathOps α) {H Dh dff P maxLen classes pd N : ℕ}
    (v : ViT α H Dh dff P maxLen classes pd) (images : ℕ → ℕ → ℕ → ℕ → α)
    (nv nh : ℕ) (hP : 0 < P) (hLen : P ≤ maxLen) : Fin N → Fin classes → α :=
  let patches : Fin N → Fin P → Fin (pd * pd * 3) → α :=
    fun n k m => patchify pd 3 nv nh images n.val k.val m.val
  let patches_embedded := fun n k => v.patch_embedding.apply (patches n k)
  let cls_token_repeat : Fin N → Fin 1 → Fin (H * Dh) → α := fun _ _ => v.cls_token
  let _output_cat : Fin N → Fin (1 + P) → Fin (H * Dh) → α := fun n i d =>
    if h : i.val < 1 then cls_token_repeat n ⟨i.val, h⟩ d
    else patches_embedded n ⟨i.val - 1, by have := i.isLt; omega⟩ d
  let output := v.positional_encoding.forward patches_embedded hLen
  let mask : Fin P → Fin P → Bool := fun _ _ => true
  let output := v.layers.foldl (fun o l => l.forward ops o (some mask)) output
  let cls_embedding := fun n => output n ⟨0, hP⟩
  fun n => v.fc.apply (cls_embedding n)

/-- Follows the spec's words in §9's open question: the sequence actually
processed is the original `patches_embedded` without the CLS token, fed
through positional encoding and the encoder layers with an all-ones
`(num_patches, num_patches)` mask, and the logits are the classifier
applied to sequence position 0 of that CLS-less sequence. -/
def ViT.forwardSpecNoCls (ops : MathOps α) {H Dh dff P maxLen classes pd N : ℕ}
    (v : ViT α H Dh dff P maxLen classes pd) (images : ℕ → ℕ → ℕ → ℕ → α)
    (nv nh : ℕ) (hP : 0 < P) (hLen : P ≤ maxLen) : Fin N → Fin classes → α :=
  let patches : Fin N → Fin P → Fin (pd * pd * 3) → α :=
    fun n k m => patchify pd 3 nv nh images n.val k.val m.val
  let patches_embedded := fun n k => v.patch_embedding.apply (patches n k)
  let allOnes : Fin P → Fin P → Bool := fun _ _ => true
  let output := v.positional_encoding.forward patches_embedded hLen
  let output := v.layers.foldl (fun o l => l.forward ops o (some allOnes)) output
  fun n => v.fc.apply (output n ⟨0, hP⟩)

/-- C6: in `ViT.forward` the sequence fed through positional encoding and
the encoder layers is `patches_embedded` without the CLS token, the mask
passed to every layer is the all-ones `(num_patches, num_patches)` matrix,
and the logits come from sequence position 0 of that CLS-less sequence
(`forwardSpecNoCls`); consequently the CLS-prepended concatenation is dead
code and the logits are invariant under any change of `cls_token`. -/
theorem C6_vit_cls_token_dead_code (ops : MathOps α) {H Dh dff P maxLen classes pd N : ℕ}
    (v : ViT α H Dh dff P maxLen classes pd) (images : ℕ → ℕ → ℕ → ℕ → α)
    (nv nh : ℕ) (hP : 0 < P) (hLen : P ≤ maxLen) (c : Fin (H * Dh) → α) :
    ViT.forward (N := N) ops v images nv nh hP hLen =
      ViT.forwardSpecNoCls (N := N) ops v images nv nh hP hLen ∧
    ViT.forward (N := N) ops { v with cls_token := c } images nv nh hP hLen =
      ViT.forward (N := N) ops v images nv nh hP hLen :=
  ⟨rfl, rfl⟩

/-- A concrete one-patch, one-layer `ViT` over `ℚ` for the C6 witness. -/
def exViT : ViT ℚ 1 1 1 1 1 1 1 where
  patch_embedding := ⟨fun _ _ => 1, fun _ => 0⟩
  positional_encoding := ⟨fun _ _ => 1⟩
  fc := ⟨fun _ _ => 1, fun _ => 0⟩
  cls_token := fun _ => 5
  layers := [⟨⟨⟨⟨⟨fun _ _ => 1, fun _ => 0⟩, ⟨fun _ _ => 1, fun _ => 0⟩,
    ⟨fun _ _ => 1, fun _ => 0⟩⟩, ⟨fun _ _ => 1, fun _ => 0⟩⟩,
    ⟨fun _ => 1, fun _ => 0⟩⟩,
    ⟨⟨fun _ _ => 1, fun _ => 0⟩, ⟨fun _ _ => 1, fun _ => 0⟩,
      ⟨fun _ => 1, fun _ => 0⟩⟩⟩]

/-- Witness for C6 on the concrete `exViT` with a batch of one image. -/
theorem C6_vit_cls_token_dead_code_witness :
    ViT.forward (N := 1) opsQ exViT exImage 1 1 Nat.one_pos (le_refl 1) =
      ViT.forwardSpecNoCls (N := 1) opsQ exViT exImage 1 1 Nat.one_pos (le_refl 1) ∧
    ViT.forward (N := 1) opsQ { exViT with cls_token := fun _ => 77 } exImage 1 1
        Nat.one_pos (le_refl 1) =
      ViT.forward (N := 1) opsQ exViT exImage 1 1 Nat.one_pos (le_refl 1) :=
  C6_vit_cls_token_dead_code opsQ exViT exImage 1 1 Nat.one_pos (le_refl 1) (fun _ => 77)

/-- `TransformerDecoder.__init__` (`transformer.py` lines 242-272): the
NULL and START token ids, `num_layers` decoder layers, the caption
embedding table, positional encoding, feature embedding and vocabulary
score projection.  `V` is the vocabulary size, `Din` the image-feature
dimension, `H * Dh` the embedding dimension and `maxLen` the positional
encoding capacity (`max_length`). -/
structure TransformerDecoder (α : Type) (V Din H Dh dff maxLen : ℕ) where
  null : Fin V
  start : Fin V
  layers : List (DecoderLayer α H Dh dff)
  caption_embedding : Fin V → Fin (H * Dh) → α
  positional_encoding : PositionalEncoding α (H * Dh) maxLen
  feature_embedding : LinearLayer α Din (H * Dh)
  score_projection : LinearLayer α (H * Dh) V

/-- `TransformerDecoder.get_data_embeddings`: embed the image features and
unsqueeze to `(N, 1, D)`; embed the captions and add positional encoding. -/
def TransformerDecoder.get_data_embeddings {V Din H Dh dff maxLen N T : ℕ}
    (dec : TransformerDecoder α V Din H Dh dff maxLen)
    (features : Fin N → Fin Din → α) (captions : Fin N → Fin T → Fin V)
    (hT : T ≤ maxLen) :
    (Fin N → Fin 1 → Fin (H * Dh) → α) × (Fin N → Fin T → Fin (H * Dh) → α) :=
  let feature_embedding := fun n => dec.feature_embedding.apply (features n)
  let caption_embedding :=
    dec.positional_encoding.forward (fun n t => dec.caption_embedding (captions n t)) hT
  (fun n _ => feature_embedding n, caption_embedding)

/-- `TransformerDecoder.forward`: embeddings, causal mask over the caption
length (the `mask.to(dtype)` on line 315 is a discarded no-op), the
decoder-layer stack, and the score projection. -/
def TransformerDecoder.forward (ops : MathOps α) {V Din H Dh dff maxLen N T : ℕ}
    (dec : TransformerDecoder α V Din H Dh dff maxLen)
    (features : Fin N → Fin Din → α) (captions : Fin N → Fin T → Fin V)
    (hT : T ≤ maxLen) : Fin N → Fin T → Fin V → α :=
  let emb := dec.get_data_embeddings features captions hT
  let mask := get_causal_mask T
  let output := dec.layers.foldl (fun o l => l.forward ops o emb.1 (some mask)) emb.2
  fun n t => dec.score_projection.apply (output n t)

/-- `torch.argmax` along the vocabulary axis: the first index attaining
the maximum, computed by a left fold from the initial index `i0`. -/
def argmaxFin {β : Type} [LinearOrder β] {V : ℕ} (f : Fin V → β) (i0 : Fin V) : Fin V :=
  (List.finRange V).foldl (fun best i => if f best < f i then i else best) i0

/-- The loop of `TransformerDecoder.sample` (lines 342-370): the state
after `t` iterations is the partial caption (`START` followed by the `t`
chosen words) and the captions array (initialized to `NULL`, position `u`
overwritten at iteration `u`).  Each iteration runs a full forward pass on
the partial caption, takes `argmax` of the last position's logits, writes
it at position `t` of the captions array and appends it to the partial
caption. -/
def TransformerDecoder.sampleLoop (ops : MathOps α) {V Din H Dh dff maxLen N L : ℕ}
    (dec : TransformerDecoder α V Din H Dh dff maxLen)
    (features : Fin N → Fin Din → α) :
    (t : ℕ) → t ≤ maxLen → ((Fin N → Fin (t + 1) → Fin V) × (Fin N → Fin L → Fin V))
  | 0, _ => (fun _ _ => dec.start, fun _ _ => dec.null)
  | t + 1, ht =>
    let st := dec.sampleLoop ops features t (by omega)
    let output_logits := dec.forward ops features st.1 ht
    let word : Fin N → Fin V :=
      fun n => argmaxFin (output_logits n (Fin.last t)) ⟨0, dec.null.pos⟩
    (fun n i => if h : i.val < t + 1 then st.1 n ⟨i.val, h⟩ else word n,
     fun n i => if i.val = t then word n else st.2 n i)

/-- `TransformerDecoder.sample`: greedy decoding for `max_length = L`
steps; returns the `(N, L)` captions array after the loop. -/
def TransformerDecoder.sample (ops : MathOps α) {V Din H Dh dff maxLen N : ℕ}
    (dec : TransformerDecoder α V Din H Dh dff maxLen)
    (features : Fin N → Fin Din → α) (L : ℕ) (hL : L ≤ maxLen) :
    Fin N → Fin L → Fin V :=
  (dec.sampleLoop ops features L hL).2

/-- Follows the spec's words for autoregressive sampling (§5/§6): the
partial sequence of length `t + 1` for step `t`; it "starts every sequence
with the START id" and at each step appends "the argmax of the last
position's output distribution" of "a full forward pass over the partial
sequence so far". -/
def captionSoFar (ops : MathOps α) {V Din H Dh dff maxLen N : ℕ}
    (dec : TransformerDecoder α V Din H Dh dff maxLen)
    (features : Fin N → Fin Din → α) :
    (t : ℕ) → t ≤ maxLen → Fin N → Fin (t + 1) → Fin V
  | 0, _ => fun _ _ => dec.start
  | t + 1, ht => fun n i =>
    if h : i.val < t + 1 then captionSoFar ops dec features t (by omega) n ⟨i.val, h⟩
    else
      argmaxFin
        (dec.forward ops features (captionSoFar ops dec features t (by omega)) ht n
          (Fin.last t)) ⟨0, dec.null.pos⟩

/-- The partial caption maintained by the sampling loop coincides with the
spec-side `captionSoFar` recursion. -/
theorem sampleLoop_pc_eq (ops : MathOps α) {V Din H Dh dff maxLen N L : ℕ}
    (dec : TransformerDecoder α V Din H Dh dff maxLen)
    (features : Fin N → Fin Din → α) (t : ℕ) (ht : t ≤ maxLen) :
    (dec.sampleLoop (L := L) ops features t ht).1 = captionSoFar ops dec features t ht := by
  induction t with
  | zero => rfl
  | succ t ih =>
    funext n i
    simp only [TransformerDecoder.sampleLoop, captionSoFar]
    rw [ih]

/-- Every already-visited position of the captions array holds the greedy
word of its own step. -/
theorem sampleLoop_captions_eq (ops : MathOps α) {V Din H Dh dff maxLen N L : ℕ}
    (dec : TransformerDecoder α V Din H Dh dff maxLen)
    (features : Fin N → Fin Din → α) (t : ℕ) (ht : t ≤ maxLen) (n : Fin N)
    (i : Fin L) (hi : i.val < t) (hb : i.val + 1 ≤ maxLen) :
    (dec.sampleLoop (L := L) ops features t ht).2 n i =
      argmaxFin
        (dec.forward ops features (captionSoFar ops dec features i.val (by omega)) hb n
          (Fin.last i.val)) ⟨0, dec.null.pos⟩ := by
  induction t with
  | zero => omega
  | succ t ih =>
    simp only [TransformerDecoder.sampleLoop]
    by_cases hit : i.val = t
    · subst hit
      rw [if_pos rfl, sampleLoop_pc_eq]
    · rw [if_neg hit]
      exact ih (by omega) (by omega)

/-- C7: `TransformerDecoder.sample` returns an `(N, L)` array of token ids
in which position `t` is filled by iteration `t` of the loop with the
argmax, over the vocabulary, of the last position of a full forward pass
over the partial sequence so far (`captionSoFar t`); the partial sequence
starts as one START id per example, each later partial sequence extends
the previous one, and its last entry is the appended argmax. -/
theorem C7_sample_greedy_loop (ops : MathOps α) {V Din H Dh dff maxLen N L : ℕ}
    (dec : TransformerDecoder α V Din H Dh dff maxLen)
    (features : Fin N → Fin Din → α) (hL : L ≤ maxLen) (n : Fin N) (t : Fin L)
    (hb : t.val + 1 ≤ maxLen) :
    (dec.sample ops features L hL n t =
      argmaxFin
        (dec.forward ops features (captionSoFar ops dec features t.val (by omega)) hb n
          (Fin.last t.val)) ⟨0, dec.null.pos⟩) ∧
    (∀ (h0 : (0 : ℕ) ≤ maxLen) (n' : Fin N) (i : Fin 1),
      captionSoFar ops dec features 0 h0 n' i = dec.start) ∧
    (∀ (ht1 : t.val + 1 ≤ maxLen) (n' : Fin N) (i : Fin (t.val + 1)),
      captionSoFar ops dec features (t.val + 1) ht1 n' i.castSucc =
        captionSoFar ops dec features t.val (by omega) n' i) ∧
    (∀ (ht1 : t.val + 1 ≤ maxLen) (n' : Fin N),
      captionSoFar ops dec features (t.val + 1) ht1 n' (Fin.last (t.val + 1)) =
        argmaxFin
          (dec.forward ops features (captionSoFar ops dec features t.val (by omega))
            ht1 n' (Fin.last t.val)) ⟨0, dec.null.pos⟩) := by
  refine ⟨?_, ?_, ?_, ?_⟩
  · exact sampleLoop_captions_eq ops dec features L hL n t t.isLt hb
  · intro h0 n' i; rfl
  · intro ht1 n' i
    simp only [captionSoFar, Fin.coe_castSucc, i.isLt, dif_pos]
  · intro ht1 n'
    simp [captionSoFar]

/-- A concrete `(N, Din) = (1, 1)` feature batch for the C7 witness. -/
def exFeatures : Fin 1 → Fin 1 → ℚ := fun _ _ => 1

/-- A concrete decoder over `ℚ` with a one-word vocabulary, no decoder
layers and positional capacity 2, for the C7 witness. -/
def exDecoder : TransformerDecoder ℚ 1 1 1 1 1 2 where
  null := 0
  start := 0
  layers := []
  caption_embedding := fun _ _ => 1
  positional_encoding := ⟨fun _ _ => 1⟩
  feature_embedding := ⟨fun _ _ => 1, fun _ => 0⟩
  score_projection := ⟨fun _ _ => 1, fun _ => 0⟩

/-- Witness for C7: the concrete decoder's sample at position 1 of a
2-step generation is the greedy argmax over the forward pass on the
partial sequence of length 2. -/
theorem C7_sample_greedy_loop_witness :
    exDecoder.sample opsQ exFeatures 2 (by decide) 0 ⟨1, by decide⟩ =
      argmaxFin
        (exDecoder.forward opsQ exFeatures
          (captionSoFar opsQ exDecoder exFeatures 1 (by decide)) (by decide) 0
          (Fin.last 1)) ⟨0, by decide⟩ :=
  (C7_sample_greedy_loop opsQ exDecoder exFeatures (by decide) 0 ⟨1, by decide⟩
    (by decide)).1

/-- An untyped rank-3 tensor: explicit shape `(n, s, d)` plus entries. -/
structure Tensor3 (α : Type) where
  n : ℕ
  s : ℕ
  d : ℕ
  entry : Fin n → Fin s → Fin d → α

/-- `tensor.shape` as the triple `(batch, sequence, channel)`. -/
def Tensor3.shape (x : Tensor3 α) : ℕ × ℕ × ℕ := (x.n, x.s, x.d)

/-- The failures the source can raise: the `assert key.shape ==
value.shape` in the two attention forwards, the `assert embed_dim %
num_heads == 0` in `MultiHeadAttentionLayer.__init__`, and the shape
errors the tensor library itself raises on inconsistent operands. -/
inductive TorchError where
  | assertKeyValue
  | assertHeadsDivide
  | shapeMismatch
deriving DecidableEq

/-- `AttentionLayer.forward` on untyped tensors: the source unpacks the
shapes, runs `assert key.shape == value.shape` BEFORE any projection,
score or output is computed, and only then computes attention (which the
tensor library only accepts when the operand shapes are consistent with
the layer dimension `D`; inconsistent operands raise its own shape
error). -/
def AttentionLayer.forwardChecked (ops : MathOps α) {D : ℕ} (A : AttentionLayer α D)
    (query key value : Tensor3 α) (attn_mask : Option (ℕ → ℕ → Bool)) :
    Except TorchError (Tensor3 α) :=
  if hkv : key.shape = value.shape then
    if hok : query.d = D ∧ value.d = D ∧ query.n = value.n then
      have hkn : key.n = value.n := congrArg (fun p => p.1) hkv
      have hks : key.s = value.s := congrArg (fun p => p.2.1) hkv
      have hkd : key.d = value.d := congrArg (fun p => p.2.2) hkv
      .ok ⟨query.n, query.s, D,
        A.forward ops
          (fun n s i => query.entry n s (Fin.cast hok.1.symm i))
          (fun n t i =>
            key.entry (Fin.cast (hok.2.2.trans hkn.symm) n) (Fin.cast hks.symm t)
              (Fin.cast ((hkd.trans hok.2.1).symm) i))
          (fun n t i =>
            value.entry (Fin.cast hok.2.2 n) t (Fin.cast hok.2.1.symm i))
          (attn_mask.map (fun m s t => m s.val t.val))⟩
    else .error .shapeMismatch
  else .error .assertKeyValue

/-- `MultiHeadAttentionLayer.forward` on untyped tensors, with the same
`assert key.shape == value.shape` before any computation. -/
def MultiHeadAttentionLayer.forwardChecked (ops : MathOps α) {H Dh : ℕ}
    (L : MultiHeadAttentionLayer α H Dh)
    (query key value : Tensor3 α) (attn_mask : Option (ℕ → ℕ → Bool)) :
    Except TorchError (Tensor3 α) :=
  if hkv : key.shape = value.shape then
    if hok : query.d = H * Dh ∧ value.d = H * Dh ∧ query.n = value.n then
      have hkn : key.n = value.n := congrArg (fun p => p.1) hkv
      have hks : key.s = value.s := congrArg (fun p => p.2.1) hkv
      have hkd : key.d = value.d := congrArg (fun p => p.2.2) hkv
      .ok ⟨query.n, query.s, H * Dh,
        L.forward ops
          (fun n s i => query.entry n s (Fin.cast hok.1.symm i))
          (fun n t i =>
            key.entry (Fin.cast (hok.2.2.trans hkn.symm) n) (Fin.cast hks.symm t)
              (Fin.cast ((hkd.trans hok.2.1).symm) i))
          (fun n t i =>
            value.entry (Fin.cast hok.2.2 n) t (Fin.cast hok.2.1.symm i))
          (attn_mask.map (fun m s t => m s.val t.val))⟩
    else .error .shapeMismatch
  else .error .assertKeyValue

/-- `MultiHeadAttentionLayer.__init__` from raw dimensions: creates the
inherited projections (`key_proj`/`value_proj` as deep copies of
`query_proj`, so all three start from the same raw weights `qw`/`qb`),
asserts `embed_dim % num_heads == 0`, then creates `head_proj`.  On
success, the layer's typed embedding dimension is
`num_heads * (embed_dim / num_heads) = embed_dim`. -/
def mhaInit (embed_dim num_heads : ℕ) (qw hw : ℕ → ℕ → α) (qb hb : ℕ → α) :
    Except TorchError ((Dh : ℕ) × MultiHeadAttentionLayer α num_heads Dh) :=
  if embed_dim % num_heads = 0 then
    .ok ⟨embed_dim / num_heads,
      { query_proj := ⟨fun o i => qw o.val i.val, fun o => qb o.val⟩
        key_proj := ⟨fun o i => qw o.val i.val, fun o => qb o.val⟩
        value_proj := ⟨fun o i => qw o.val i.val, fun o => qb o.val⟩
        head_proj := ⟨fun o i => hw o.val i.val, fun o => hb o.val⟩ }⟩
  else .error .assertHeadsDivide

/-- C8: for positive head count `H`, constructing a multi-head attention
layer succeeds iff `H` divides the embedding dimension `D`; when it does
not (e.g. `D = 10`, `H = 3`), construction fails with the divisibility
assertion; and no forward call on a constructed (typed) layer can ever
fail with that assertion — `forwardChecked` never returns it. -/
theorem C8_mha_divisible_at_construction (ops : MathOps α) (D H : ℕ) (_hH : 0 < H)
    (qw hw : ℕ → ℕ → α) (qb hb : ℕ → α) :
    ((∃ p, mhaInit (α := α) D H qw hw qb hb = .ok p) ↔ D % H = 0) ∧
    (¬ D % H = 0 → mhaInit (α := α) D H qw hw qb hb = .error .assertHeadsDivide) ∧
    (∀ {Dh : ℕ} (L : MultiHeadAttentionLayer α H Dh) (q k v : Tensor3 α)
        (m : Option (ℕ → ℕ → Bool)),
      L.forwardChecked ops q k v m ≠ .error .assertHeadsDivide) := by
  refine ⟨⟨fun hex => ?_, fun h => ?_⟩, fun h => by simp [mhaInit, h],
    fun L q k v m => ?_⟩
  · obtain ⟨p, hp⟩ := hex
    by_contra h
    simp [mhaInit, h] at hp
  · exact ⟨⟨D / H,
      { query_proj := ⟨fun o i => qw o.val i.val, fun o => qb o.val⟩
        key_proj := ⟨fun o i => qw o.val i.val, fun o => qb o.val⟩
        value_proj := ⟨fun o i => qw o.val i.val, fun o => qb o.val⟩
        head_proj := ⟨fun o i => hw o.val i.val, fun o => hb o.val⟩ }⟩,
      by simp [mhaInit, h]⟩
  · unfold MultiHeadAttentionLayer.forwardChecked
    split
    · split <;> simp
    · simp

/-- Witness for C8: with `D = 10`, `H = 3` (the claim's example)
construction fails with the divisibility assertion, and with `D = 10`,
`H = 5` it succeeds. -/
theorem C8_mha_divisible_witness :
    mhaInit (α := ℚ) 10 3 (fun _ _ => 1) (fun _ _ => 1) (fun _ => 0) (fun _ => 0) =
      .error .assertHeadsDivide ∧
    (∃ p, mhaInit (α := ℚ) 10 5 (fun _ _ => 1) (fun _ _ => 1) (fun _ => 0) (fun _ => 0) =
      .ok p) :=
  ⟨(C8_mha_divisible_at_construction opsQ 10 3 (by decide) (fun _ _ => 1) (fun _ _ => 1)
      (fun _ => 0) (fun _ => 0)).2.1 (by decide),
    (C8_mha_divisible_at_construction opsQ 10 5 (by decide) (fun _ _ => 1) (fun _ _ => 1)
      (fun _ => 0) (fun _ => 0)).1.mpr (by decide)⟩

/-- C9: in both attention forwards, a key/value shape disagreement fails
with the assertion error regardless of the layer's weights, the mask and
all entry values (so before any projection, score or output could matter),
and when key and value share a shape that assertion branch is
unreachable — the result is never `assertKeyValue`. -/
theorem C9_key_value_assert_first (ops : MathOps α) {D H Dh : ℕ}
    (A : AttentionLayer α D) (L : MultiHeadAttentionLayer α H Dh)
    (query key value qM kM vM : Tensor3 α)
    (mask maskM : Option (ℕ → ℕ → Bool)) :
    (key.shape ≠ value.shape →
      A.forwardChecked ops query key value mask = .error .assertKeyValue) ∧
    (key.shape = value.shape →
      A.forwardChecked ops query key value mask ≠ .error .assertKeyValue) ∧
    (kM.shape ≠ vM.shape →
      L.forwardChecked ops qM kM vM maskM = .error .assertKeyValue) ∧
    (kM.shape = vM.shape →
      L.forwardChecked ops qM kM vM maskM ≠ .error .assertKeyValue) := by
  refine ⟨fun h => by simp [AttentionLayer.forwardChecked, h], fun h => ?_,
    fun h => by simp [MultiHeadAttentionLayer.forwardChecked, h], fun h => ?_⟩
  · simp only [AttentionLayer.forwardChecked, dif_pos h]
    split <;> simp
  · simp only [MultiHeadAttentionLayer.forwardChecked, dif_pos h]
    split <;> simp

/-- A concrete `(1, s, 1)` tensor of ones over `ℚ`. -/
def exT (s : ℕ) : Tensor3 ℚ := ⟨1, s, 1, fun _ _ _ => 1⟩

/-- A concrete one-head multi-head layer over `ℚ` with `Dh = 1`. -/
def exMHA : MultiHeadAttentionLayer ℚ 1 1 :=
  ⟨exAttn, ⟨fun _ _ => 1, fun _ => 0⟩⟩

/-- Witness for C9: mismatched key/value shapes `(1,2,1)` vs `(1,1,1)`
yield the assertion error in both layers; matching shapes never do. -/
theorem C9_key_value_assert_witness :
    (AttentionLayer.forwardChecked opsQ exAttn (exT 1) (exT 2) (exT 1) none =
      .error .assertKeyValue) ∧
    (AttentionLayer.forwardChecked opsQ exAttn (exT 1) (exT 1) (exT 1) none ≠
      .error .assertKeyValue) ∧
    (MultiHeadAttentionLayer.forwardChecked opsQ exMHA (exT 1) (exT 2) (exT 1) none =
      .error .assertKeyValue) ∧
    (MultiHeadAttentionLayer.forwardChecked opsQ exMHA (exT 1) (exT 1) (exT 1) none ≠
      .error .assertKeyValue) :=
  ⟨(C9_key_value_assert_first opsQ exAttn exMHA (exT 1) (exT 2) (exT 1) (exT 1) (exT 2)
      (exT 1) none none).1 (by decide),
    (C9_key_value_assert_first opsQ exAttn exMHA (exT 1) (exT 1) (exT 1) (exT 1) (exT 2)
      (exT 1) none none).2.1 (by decide),
    (C9_key_value_assert_first opsQ exAttn exMHA (exT 1) (exT 1) (exT 1) (exT 1) (exT 2)
      (exT 1) none none).2.2.1 (by decide),
    (C9_key_value_assert_first opsQ exAttn exMHA (exT 1) (exT 1) (exT 1) (exT 1) (exT 1)
      (exT 1) none none).2.2.2 (by decide)⟩

/-- `DecoderLayer.forward` on untyped tensors: accepted when the sequence
and conditioning tensors have channel width `input_dim = H * Dh` and equal
batch size, producing an output of shape `(seq.n, seq.s, H * Dh)`. -/
def DecoderLayer.forwardChecked (ops : MathOps α) {H Dh dff : ℕ}
    (l : DecoderLayer α H Dh dff) (seq cond : Tensor3 α) (mask : ℕ → ℕ → Bool) :
    Except TorchError (Tensor3 α) :=
  if h : seq.d = H * Dh ∧ cond.d = H * Dh ∧ cond.n = seq.n then
    .ok ⟨seq.n, seq.s, H * Dh,
      l.forward ops
        (fun n s i => seq.entry n s (Fin.cast h.1.symm i))
        (fun n sc i => cond.entry (Fin.cast h.2.2.symm n) sc (Fin.cast h.2.1.symm i))
        (some fun i j => mask i.val j.val)⟩
  else .error .shapeMismatch

/-- `EncoderLayer.forward` on untyped tensors: accepted when the sequence
has channel width `d_model = H * Dh`. -/
def EncoderLayer.forwardChecked (ops : MathOps α) {H Dh dff : ℕ}
    (l : EncoderLayer α H Dh dff) (seq : Tensor3 α) (mask : ℕ → ℕ → Bool) :
    Except TorchError (Tensor3 α) :=
  if h : seq.d = H * Dh then
    .ok ⟨seq.n, seq.s, H * Dh,
      l.forward ops (fun n s i => seq.entry n s (Fin.cast h.symm i))
        (some fun i j => mask i.val j.val)⟩
  else .error .shapeMismatch

/-- The decoder stack loop of `TransformerDecoder.forward`: feed each
layer's output to the next layer unchanged. -/
def decoderStackChecked (ops : MathOps α) {H Dh dff : ℕ} :
    List (DecoderLayer α H Dh dff) → Tensor3 α → Tensor3 α → (ℕ → ℕ → Bool) →
      Except TorchError (Tensor3 α)
  | [], seqT, _, _ => .ok seqT
  | l :: ls, seqT, condT, mask =>
    match l.forwardChecked ops seqT condT mask with
    | .ok out => decoderStackChecked ops ls out condT mask
    | .error e => .error e

/-- The decoder stack preserves the sequence shape: helper for C10,
by induction on the layer list. -/
theorem decoderStackChecked_shape (ops : MathOps α) {H Dh dff : ℕ}
    (ls : List (DecoderLayer α H Dh dff)) (seqT condT : Tensor3 α)
    (mask : ℕ → ℕ → Bool)
    (h : seqT.d = H * Dh ∧ condT.d = H * Dh ∧ condT.n = seqT.n) :
    ∃ out, decoderStackChecked ops ls seqT condT mask = .ok out ∧
      out.shape = seqT.shape := by
  induction ls generalizing seqT with
  | nil => exact ⟨seqT, rfl, rfl⟩
  | cons l ls ih =>
    obtain ⟨out, hout, hshape⟩ := ih
      ⟨seqT.n, seqT.s, H * Dh,
        l.forward ops (fun n s i => seqT.entry n s (Fin.cast h.1.symm i))
          (fun n sc i => condT.entry (Fin.cast h.2.2.symm n) sc (Fin.cast h.2.1.symm i))
          (some fun i j => mask i.val j.val)⟩
      ⟨rfl, h.2.1, h.2.2⟩
    refine ⟨out, ?_, ?_⟩
    · simp only [decoderStackChecked]
      unfold DecoderLayer.forwardChecked
      rw [dif_pos h]
      exact hout
    · rw [hshape]
      simp [Tensor3.shape, h.1]

/-- C10: `MultiHeadAttentionLayer.forward` returns a tensor of the input
query's shape `(N, S, D)` whenever the operands are consistent (`H`
divides `D` by the `H * Dh` typing); `DecoderLayer` and `EncoderLayer`
each return an output of the same shape as their input sequence; and the
decoder stack feeds each layer's output to the next unchanged, preserving
the sequence shape end to end. -/
theorem C10_shape_preservation (ops : MathOps α) {H Dh dff : ℕ}
    (L : MultiHeadAttentionLayer α H Dh) (ld : DecoderLayer α H Dh dff)
    (le : EncoderLayer α H Dh dff) (ls : List (DecoderLayer α H Dh dff))
    (q k v seqT condT seqE : Tensor3 α) (mask : Option (ℕ → ℕ → Bool))
    (m2 m3 : ℕ → ℕ → Bool) :
    (k.shape = v.shape → q.d = H * Dh ∧ v.d = H * Dh ∧ q.n = v.n →
      ∃ out, L.forwardChecked ops q k v mask = .ok out ∧ out.shape = q.shape) ∧
    (seqT.d = H * Dh ∧ condT.d = H * Dh ∧ condT.n = seqT.n →
      ∃ out, ld.forwardChecked ops seqT condT m2 = .ok out ∧
        out.shape = seqT.shape) ∧
    (seqE.d = H * Dh →
      ∃ out, le.forwardChecked ops seqE m3 = .ok out ∧ out.shape = seqE.shape) ∧
    (seqT.d = H * Dh ∧ condT.d = H * Dh ∧ condT.n = seqT.n →
      ∃ out, decoderStackChecked ops ls seqT condT m2 = .ok out ∧
        out.shape = seqT.shape) := by
  refine ⟨fun hkv hok => ?_, fun h => ?_, fun h => ?_,
    fun h => decoderStackChecked_shape ops ls seqT condT m2 h⟩
  · unfold MultiHeadAttentionLayer.forwardChecked
    rw [dif_pos hkv, dif_pos hok]
    exact ⟨_, rfl, by simp [Tensor3.shape, hok.1]⟩
  · unfold DecoderLayer.forwardChecked
    rw [dif_pos h]
    exact ⟨_, rfl, by simp [Tensor3.shape, h.1]⟩
  · unfold EncoderLayer.forwardChecked
    rw [dif_pos h]
    exact ⟨_, rfl, by simp [Tensor3.shape, h]⟩

/-- A concrete one-layer decoder layer over `ℚ` for the C10 witness. -/
def exDecLayer : DecoderLayer ℚ 1 1 1 where
  self_atn_block := ⟨exMHA, ⟨fun _ => 1, fun _ => 0⟩⟩
  cross_atn_block := ⟨exMHA, ⟨fun _ => 1, fun _ => 0⟩⟩
  feedforward_block :=
    ⟨⟨fun _ _ => 1, fun _ => 0⟩, ⟨fun _ _ => 1, fun _ => 0⟩, ⟨fun _ => 1, fun _ => 0⟩⟩

/-- A concrete encoder layer over `ℚ` for the C10 witness. -/
def exEncLayer : EncoderLayer ℚ 1 1 1 where
  self_attention := ⟨exMHA, ⟨fun _ => 1, fun _ => 0⟩⟩
  feed_forward :=
    ⟨⟨fun _ _ => 1, fun _ => 0⟩, ⟨fun _ _ => 1, fun _ => 0⟩, ⟨fun _ => 1, fun _ => 0⟩⟩

/-- Witness for C10 on concrete `(1,2,1)`-shaped sequences, a `(1,1,1)`
conditioning tensor and a two-layer decoder stack. -/
theorem C10_shape_preservation_witness :
    (∃ out, MultiHeadAttentionLayer.forwardChecked opsQ exMHA (exT 2) (exT 1) (exT 1)
        none = .ok out ∧ out.shape = (exT 2).shape) ∧
    (∃ out, DecoderLayer.forwardChecked opsQ exDecLayer (exT 2) (exT 1)
        (fun _ _ => true) = .ok out ∧ out.shape = (exT 2).shape) ∧
    (∃ out, EncoderLayer.forwardChecked opsQ exEncLayer (exT 2)
        (fun _ _ => true) = .ok out ∧ out.shape = (exT 2).shape) ∧
    (∃ out, decoderStackChecked opsQ [exDecLayer, exDecLayer] (exT 2) (exT 1)
        (fun _ _ => true) = .ok out ∧ out.shape = (exT 2).shape) :=
  ⟨(C10_shape_preservation opsQ exMHA exDecLayer exEncLayer [exDecLayer, exDecLayer]
      (exT 2) (exT 1) (exT 1) (exT 2) (exT 1) (exT 2) none (fun _ _ => true)
      (fun _ _ => true)).1 (by decide) (by decide),
    (C10_shape_preservation opsQ exMHA exDecLayer exEncLayer [exDecLayer, exDecLayer]
      (exT 2) (exT 1) (exT 1) (exT 2) (exT 1) (exT 2) none (fun _ _ => true)
      (fun _ _ => true)).2.1 (by decide),
    (C10_shape_preservation opsQ exMHA exDecLayer exEncLayer [exDecLayer, exDecLayer]
      (exT 2) (exT 1) (exT 1) (exT 2) (exT 1) (exT 2) none (fun _ _ => true)
      (fun _ _ => true)).2.2.1 (by decide),
    (C10_shape_preservation opsQ exMHA exDecLayer exEncLayer [exDecLayer, exDecLayer]
      (exT 2) (exT 1) (exT 1) (exT 2) (exT 1) (exT 2) none (fun _ _ => true)
      (fun _ _ => true)).2.2.2 (by decide)⟩

end TV
